import Mathlib

/-!
# Verification of the saucedemo test-suite helper and page-object layer

Shallow embedding of the JavaScript sources in `src/` (TestHelpers.js,
BasePage.js, LoginPage.js, ProductsPage.js, CartPage.js).  Pure string
helpers become Lean functions over `List Char`; JavaScript numbers that can
be `NaN` are modelled by `JsNum`; browser/filesystem effects are modelled by
explicit oracles (the outcome of `Math.random`, `fs.readFileSync`,
`JSON.parse`, `page.waitForSelector`) passed as parameters, and in-place
array mutation by an explicit array store.
-/

namespace SauceDemo

/-- A JavaScript number that may be `NaN`: either a real numeric value
(rational, since all values produced here are finite decimals) or `NaN`. -/
inductive JsNum : Type
  | nan : JsNum
  | num (q : ℚ) : JsNum
deriving DecidableEq, Repr

/-- The JavaScript whitespace class `\s` (the characters relevant to the
ASCII fixture data, plus NBSP and the common Unicode members). -/
def isJsWhitespace (c : Char) : Bool :=
  c = ' ' || c = '\t' || c = '\n' || c = '\r' || c = '\x0b' || c = '\x0c' ||
  c = ' ' || c = ' ' || c = ' '

/-- Numeric value of an ASCII digit character. -/
def digitVal (c : Char) : ℕ := c.toNat - 48

/-- Base-10 value of a digit run, most significant first. -/
def digitsToNat (ds : List Char) : ℕ :=
  ds.foldl (fun acc c => 10 * acc + digitVal c) 0

/-- Helper for `jsReplaceFirst`: replace the first occurrence of `pat` in the
character list by `repl`, leaving the list unchanged when `pat` does not
occur (the behaviour of `String.prototype.replace` with a string pattern). -/
def replaceFirstAux (pat repl : List Char) : List Char → List Char
  | [] => if pat.isPrefixOf ([] : List Char) then repl else []
  | c :: rest =>
    if pat.isPrefixOf (c :: rest) then repl ++ (c :: rest).drop pat.length
    else c :: replaceFirstAux pat repl rest

/-- `s.replace(pat, repl)` for a string pattern: JavaScript replaces only the
first occurrence. -/
def jsReplaceFirst (s pat repl : String) : String :=
  ⟨replaceFirstAux pat.data repl.data s.data⟩

/-- `Math.pow(10, e)` for an integer exponent, on rationals (split on the
sign so that everything kernel-computes with `Nat`-exponent powers). -/
def pow10 (e : ℤ) : ℚ :=
  if 0 ≤ e then (10 : ℚ) ^ e.toNat else 1 / (10 : ℚ) ^ (-e).toNat

/-- The rational value `sign * (ip . fp) * 10 ^ e` of a parsed decimal with
integer part `ip`, fraction digits of value `fp` and length `flen`, and
exponent `e`.  Kept as a separate function of the integer parts so that
parsing kernel-computes independently of rational normalisation. -/
def ratOfParts (sign : ℤ) (ip fp flen : ℕ) (e : ℤ) : ℚ :=
  (sign : ℚ) * ((ip : ℚ) + (fp : ℚ) / (10 : ℚ) ^ flen) * pow10 e

/-- Model of the JavaScript builtin `parseFloat` on decimal inputs: skip
leading whitespace, read an optional sign, a digit run, an optional fraction
after one `.`, and an optional exponent part; ignore any trailing
characters; return `NaN` when no digit was read before the exponent.
(The `Infinity` literal, which never arises from the data under test, is not
modelled.) -/
def jsParseFloat (s : String) : JsNum :=
  let l := s.data.dropWhile isJsWhitespace
  let sign : ℤ := match l with
    | '-' :: _ => -1
    | _ => 1
  let l1 := match l with
    | '-' :: rest => rest
    | '+' :: rest => rest
    | _ => l
  let intDs := l1.takeWhile Char.isDigit
  let l2 := l1.dropWhile Char.isDigit
  let fracDs := match l2 with
    | '.' :: rest => rest.takeWhile Char.isDigit
    | _ => []
  let l3 := match l2 with
    | '.' :: rest => rest.dropWhile Char.isDigit
    | _ => l2
  if intDs.isEmpty && fracDs.isEmpty then JsNum.nan
  else
    let exp : ℤ := match l3 with
      | e :: rest =>
        if e = 'e' || e = 'E' then
          let esign : ℤ := match rest with
            | '-' :: _ => -1
            | _ => 1
          let r2 := match rest with
            | '-' :: r => r
            | '+' :: r => r
            | _ => rest
          let eDs := r2.takeWhile Char.isDigit
          if eDs.isEmpty then 0 else esign * (digitsToNat eDs : ℤ)
        else 0
      | [] => 0
    JsNum.num (ratOfParts sign (digitsToNat intDs) (digitsToNat fracDs) fracDs.length exp)

/-- `TestHelpers.currencyToNumber`: `parseFloat(currencyString.replace('$', ''))`.
Total — `parseFloat` yields the value `NaN` on unparseable input, it never
throws. -/
def currencyToNumber (currencyString : String) : JsNum :=
  jsParseFloat (jsReplaceFirst currencyString "$" "")

/-- The spec's `FormatError`. -/
inductive FormatError : Type
  | formatError : FormatError
deriving DecidableEq, Repr

/-- A valid unsigned base-10 decimal literal: a nonempty digit run,
optionally followed by `.` and another nonempty digit run. -/
def isValidDecimalLiteral (s : String) : Bool :=
  let ds := s.data.takeWhile Char.isDigit
  let rest := s.data.dropWhile Char.isDigit
  !ds.isEmpty &&
    (rest.isEmpty ||
      (match rest with
       | '.' :: fs => !fs.isEmpty && fs.all Char.isDigit
       | _ => false))

/-- Value of a valid decimal literal `D+.D*`. -/
def decimalValue (s : String) : ℚ :=
  let ds := s.data.takeWhile Char.isDigit
  let rest := s.data.dropWhile Char.isDigit
  let fs := match rest with
    | '.' :: fs => fs
    | _ => []
  ratOfParts 1 (digitsToNat ds) (digitsToNat fs) fs.length 0

/-- Modelled from the spec: `parseCurrency(text) -> decimal` — "strips a
single leading currency symbol and parses the remainder as a base-10
decimal; fails with a `FormatError` if the remainder is not a valid decimal
literal."  This is the spec's claimed behaviour, stated for comparison with
the source's `currencyToNumber`. -/
def parseCurrencySpec (text : String) : Except FormatError ℚ :=
  let r : String := match text.data with
    | '$' :: rest => ⟨rest⟩
    | _ => text
  if isValidDecimalLiteral r then Except.ok (decimalValue r)
  else Except.error FormatError.formatError

/-- Helper for `collapseWsToHyphen`: the flag records whether the previous
character belonged to a whitespace run (so the run's hyphen is already
emitted). -/
def collapseWsAux : Bool → List Char → List Char
  | _, [] => []
  | inRun, c :: rest =>
    if isJsWhitespace c then
      if inRun then collapseWsAux true rest
      else '-' :: collapseWsAux true rest
    else c :: collapseWsAux false rest

/-- `.replace(/\s+/g, '-')`: every maximal run of whitespace becomes a
single hyphen. -/
def collapseWsToHyphen (l : List Char) : List Char :=
  collapseWsAux false l

/-- `TestHelpers.productNameToDataTest`:
`productName.toLowerCase().replace(/\s+/g, '-').replace(/[()]/g, '').replace(/\./g, '')`.
`Char.toLower` is exactly the mapping JavaScript `toLowerCase` applies to the
ASCII product names in the fixtures. -/
def productNameToDataTest (productName : String) : String :=
  let lowered := productName.data.map Char.toLower
  let hyphened := collapseWsToHyphen lowered
  let noParens := hyphened.filter (fun c => !(c = '(' || c = ')'))
  let noDots := noParens.filter (fun c => !(c = '.'))
  ⟨noDots⟩

/-! ## Product sampling (`TestHelpers.getRandomProducts`) -/

/-- `TestHelpers.getRandomProducts`:
`[...products].sort(() => 0.5 - Math.random()).slice(0, Math.min(count, products.length))`.
`Array.prototype.sort` with the inconsistent random comparator rearranges the
copied array into some permutation determined by the random stream of the
call; `shuffled` is that outcome, constrained to `shuffled.Perm products` in
the theorems. -/
def getRandomProducts {α : Type} (products shuffled : List α) (count : ℕ) : List α :=
  shuffled.take (min count products.length)

/-- A heap of JavaScript arrays; an array reference is an index into the
heap.  Used to make the in-place mutation of `.sort` explicit. -/
structure ArrayStore (α : Type) where
  arrays : List (List α)

/-- Dereference an array. -/
def ArrayStore.read {α : Type} (st : ArrayStore α) (r : ℕ) : List α :=
  st.arrays.getD r []

/-- Allocate a fresh array holding `l`; returns the new store and the fresh
reference. -/
def ArrayStore.alloc {α : Type} (st : ArrayStore α) (l : List α) : ArrayStore α × ℕ :=
  (⟨st.arrays ++ [l]⟩, st.arrays.length)

/-- Overwrite the array at `r` (in-place mutation). -/
def ArrayStore.write {α : Type} (st : ArrayStore α) (r : ℕ) (l : List α) : ArrayStore α :=
  ⟨st.arrays.set r l⟩

/-- Stateful embedding of `getRandomProducts` against an explicit array
store: `[...products]` allocates a fresh array holding a copy of the caller's
array, `.sort(cmp)` mutates that fresh array in place (`sortOutcome` is the
permutation the random comparator produces on this call), and `.slice` reads
from it.  Returns the final store and the sampled list. -/
def getRandomProductsStore {α : Type} (st : ArrayStore α) (productsRef : ℕ)
    (sortOutcome : List α → List α) (count : ℕ) : ArrayStore α × List α :=
  let products := st.read productsRef
  let p1 := st.alloc products
  let st2 := p1.1.write p1.2 (sortOutcome (p1.1.read p1.2))
  let shuffled := st2.read p1.2
  (st2, shuffled.take (min count products.length))

/-! ## Cart clearing (`CartPage.clearCart`) -/

/-- The live cart as observed through the page during `CartPage.clearCart`:
`itemCount` is `getCartItemCount` (the number of `.cart_item` locators),
`removeVisible` is `removeButton.isVisible()` for the first remove button,
and `clickRemove` is the state change effected by `removeButton.click()`
followed by the 700 ms settling wait. -/
structure LiveCart (S : Type) where
  itemCount : S → ℕ
  removeVisible : S → Bool
  clickRemove : S → S

/-- `CartPage.clearCart`: `while (getCartItemCount() > 0) { if (first remove
button visible) { click; wait } else break }`, with explicit fuel; `none`
means the loop was still running when the fuel ran out. -/
def clearCartLoop {S : Type} (env : LiveCart S) : ℕ → S → Option S
  | 0, _ => none
  | fuel + 1, s =>
    if 0 < env.itemCount s then
      if env.removeVisible s then clearCartLoop env fuel (env.clickRemove s)
      else some s
    else some s

/-! ## Fixture loading (`TestHelpers.loadFixture`) -/

/-- The spec's `FixtureLoadError`, carrying the fixture name and message of
the `Error` thrown by `loadFixture`. -/
inductive FixtureError : Type
  | fixtureLoadError (filename message : String) : FixtureError
deriving DecidableEq, Repr

/-- `path.join(__dirname, '..', 'fixtures', filename + '.json')`. -/
def fixturePath (dirname filename : String) : String :=
  dirname ++ "/../fixtures/" ++ filename ++ ".json"

/-- `TestHelpers.loadFixture`: read the fixture file and `JSON.parse` it,
wrapping any failure of either step in a single thrown error.  The
filesystem and the JSON parser are external, modelled as oracles: `readFile`
is `fs.readFileSync` (content, or the thrown error's message), `jsonParse`
is `JSON.parse` (parsed value of type `α`, or the thrown error's message). -/
def loadFixture {α : Type} (readFile : String → Except String String)
    (jsonParse : String → Except String α) (dirname filename : String) :
    Except FixtureError α :=
  match readFile (fixturePath dirname filename) with
  | Except.error msg =>
    Except.error (FixtureError.fixtureLoadError filename
      ("Failed to load fixture " ++ filename ++ ": " ++ msg))
  | Except.ok data =>
    match jsonParse data with
    | Except.error msg =>
      Except.error (FixtureError.fixtureLoadError filename
        ("Failed to load fixture " ++ filename ++ ": " ++ msg))
    | Except.ok parsed => Except.ok parsed

/-! ## Element visibility (`BasePage.isElementVisible`) -/

/-- A JavaScript exception as observed by a bare `catch`. -/
inductive JsError : Type
  | timeout : JsError
  | other (message : String) : JsError
deriving DecidableEq, Repr

/-- The bounded wait `BasePage.isElementVisible` passes to
`page.waitForSelector`. -/
def isElementVisibleTimeoutMs : ℕ := 5000

/-- `BasePage.isElementVisible(selector)`:
`try { await page.waitForSelector(selector, { state: visible, timeout: 5000 }); return true } catch { return false }`.
`waitForSelector` is the external wait, an oracle from selector and timeout
to its outcome (resolution, or the rejection the bare catch traps). -/
def isElementVisible (waitForSelector : String → ℕ → Except JsError Unit)
    (selector : String) : Bool :=
  match waitForSelector selector isElementVisibleTimeoutMs with
  | Except.ok _ => true
  | Except.error _ => false

/-! ## Login interaction (`LoginPage.login`) -/

/-- A primitive browser action performed by the page objects. -/
inductive PageAction : Type
  | waitForSelectorVisible (selector : String) (timeoutMs : ℕ) : PageAction
  | fill (selector value : String) : PageAction
  | click (selector : String) : PageAction
  | waitForTimeout (ms : ℕ) : PageAction
deriving DecidableEq, Repr

/-- `BasePage.fillInput`: wait for the element (30 s default), `page.fill`,
then a 200 ms settling wait. -/
def fillInput (selector value : String) : List PageAction :=
  [PageAction.waitForSelectorVisible selector 30000,
   PageAction.fill selector value,
   PageAction.waitForTimeout 200]

/-- `BasePage.clickElement`: wait for the element (30 s default),
`page.click`, then a 300 ms settling wait. -/
def clickElement (selector : String) : List PageAction :=
  [PageAction.waitForSelectorVisible selector 30000,
   PageAction.click selector,
   PageAction.waitForTimeout 300]

/-- Selector `#user-name` of LoginPage. -/
def usernameInput : String := "#user-name"

/-- Selector `#password` of LoginPage. -/
def passwordInput : String := "#password"

/-- Selector `#login-button` of LoginPage. -/
def loginButton : String := "#login-button"

/-- `LoginPage.enterUsername`. -/
def enterUsername (username : String) : List PageAction :=
  fillInput usernameInput username

/-- `LoginPage.enterPassword`. -/
def enterPassword (password : String) : List PageAction :=
  fillInput passwordInput password

/-- `LoginPage.clickLogin`. -/
def clickLogin : List PageAction :=
  clickElement loginButton

/-- `LoginPage.login(username, password)`: enterUsername, enterPassword,
clickLogin, then `waitForTimeout(1000)`.  The function's value is its action
trace only — it returns no success/failure verdict. -/
def login (username password : String) : List PageAction :=
  enterUsername username ++ enterPassword password ++ clickLogin ++
    [PageAction.waitForTimeout 1000]

/-- Distinguishes the user-input interactions (fill, click) from waits. -/
def isInputAction : PageAction → Bool
  | PageAction.fill _ _ => true
  | PageAction.click _ => true
  | _ => false

/-! ## Cart badge count (`ProductsPage.getCartItemCount`) -/

/-- Hex digit predicate for `parseInt`'s `0x` prefix handling. -/
def isHexDigit (c : Char) : Bool :=
  c.isDigit || ('a' ≤ c && c ≤ 'f') || ('A' ≤ c && c ≤ 'F')

/-- Value of a hex digit. -/
def hexDigitVal (c : Char) : ℕ :=
  if c.isDigit then c.toNat - 48
  else if 'a' ≤ c && c ≤ 'f' then c.toNat - 87
  else c.toNat - 55

/-- Base-16 value of a hex digit run. -/
def hexToNat (ds : List Char) : ℕ :=
  ds.foldl (fun acc c => 16 * acc + hexDigitVal c) 0

/-- Model of the JavaScript builtin `parseInt` with no radix argument: skip
leading whitespace, read an optional sign, then either a `0x`/`0X` hex run
or a decimal digit run; ignore trailing characters; `none` is the `NaN`
result when no digit was read. -/
def jsParseInt (s : String) : Option ℤ :=
  let l := s.data.dropWhile isJsWhitespace
  let sign : ℤ := match l with
    | '-' :: _ => -1
    | _ => 1
  let l1 := match l with
    | '-' :: rest => rest
    | '+' :: rest => rest
    | _ => l
  match l1 with
  | '0' :: x :: rest =>
    if x = 'x' || x = 'X' then
      let ds := rest.takeWhile isHexDigit
      if ds.isEmpty then none else some (sign * (hexToNat ds : ℤ))
    else
      let ds := l1.takeWhile Char.isDigit
      if ds.isEmpty then none else some (sign * (digitsToNat ds : ℤ))
  | _ =>
    let ds := l1.takeWhile Char.isDigit
    if ds.isEmpty then none else some (sign * (digitsToNat ds : ℤ))

/-- Selector `.shopping_cart_badge` of ProductsPage. -/
def shoppingCartBadge : String := ".shopping_cart_badge"

/-- `ProductsPage.getCartItemCount`:
`if (isElementVisible(shoppingCartBadge)) { return parseInt(getElementText(badge)) || 0 } return 0`.
`badgeVisible` is the outcome of the `isElementVisible` check and
`badgeText` the text `getElementText` reads from the badge; `NaN || 0` and
`0 || 0` both evaluate to `0`. -/
def getCartItemCount (badgeVisible : Bool) (badgeText : String) : ℤ :=
  if badgeVisible then
    match jsParseInt badgeText with
    | none => 0
    | some n => if n = 0 then 0 else n
  else 0

/-! ## Random string generation (`TestHelpers.generateRandomString`) -/

/-- The alphabet of `generateRandomString`. -/
def characters : String :=
  "ABCDEFGHIJKLMNOPQRSTUVWXYZabcdefghijklmnopqrstuvwxyz0123456789"

/-- `String.prototype.charAt(k)`: the one-character string at index `k`, or
the empty string out of range (as a character list). -/
def charAt (s : String) (k : ℕ) : List Char :=
  match s.data[k]? with
  | some c => [c]
  | none => []

/-- `Math.floor(r * len)` for one `Math.random()` outcome `r`. -/
def randomIndex (r : ℚ) (len : ℕ) : ℕ :=
  (⌊r * (len : ℚ)⌋).toNat

/-- The loop of `generateRandomString`: iteration `i` appends
`characters.charAt(Math.floor(random(i) * characters.length))`; `n`
iterations remain. -/
def generateRandomStringAux (random : ℕ → ℚ) : ℕ → ℕ → List Char
  | _, 0 => []
  | i, n + 1 =>
    charAt characters (randomIndex (random i) characters.length) ++
      generateRandomStringAux random (i + 1) n

/-- `TestHelpers.generateRandomString(length)` with the stream of
`Math.random()` outcomes made explicit (`random i` is the draw of loop
iteration `i`). -/
def generateRandomString (random : ℕ → ℚ) (length : ℕ) : String :=
  ⟨generateRandomStringAux random 0 length⟩

/-! ## Helper lemmas -/

theorem toNat_ofNat_valid {n : ℕ} (h : n.isValidChar) : (Char.ofNat n).toNat = n := by
  rw [Char.ofNat, dif_pos h]
  rfl

/-- `Char.toLower` never produces an ASCII uppercase letter. -/
theorem toLower_not_upper (c : Char) : ¬('A' ≤ c.toLower ∧ c.toLower ≤ 'Z') := by
  rintro ⟨h1, h2⟩
  rw [Char.le_def] at h1 h2
  have h1' : 65 ≤ c.toLower.toNat := h1
  have h2' : c.toLower.toNat ≤ 90 := h2
  rw [Char.toLower] at h1' h2'
  by_cases h : (65 ≤ c.toNat ∧ c.toNat ≤ 90)
  · rw [if_pos (by simpa using h)] at h1' h2'
    rw [toNat_ofNat_valid (Or.inl (by omega))] at h1' h2'
    omega
  · rw [if_neg (by simpa using h)] at h1' h2'
    exact h ⟨h1', h2'⟩

/-- Every character of `collapseWsAux b l` is a hyphen or a non-whitespace
character of `l`. -/
theorem mem_collapseWsAux (c : Char) (l : List Char) : ∀ b : Bool,
    c ∈ collapseWsAux b l → c = '-' ∨ (c ∈ l ∧ isJsWhitespace c = false) := by
  induction l with
  | nil =>
    intro b h
    simp [collapseWsAux] at h
  | cons d rest ih =>
    intro b h
    simp only [collapseWsAux] at h
    by_cases hw : isJsWhitespace d = true
    · rw [if_pos hw] at h
      have h' : c ∈ collapseWsAux true rest ∨ c = '-' := by
        cases b with
        | true => exact Or.inl h
        | false =>
          rcases List.mem_cons.mp h with h0 | h0
          · exact Or.inr h0
          · exact Or.inl h0
      rcases h' with h0 | h0
      · rcases ih true h0 with h1 | ⟨h1, h2⟩
        · exact Or.inl h1
        · exact Or.inr ⟨List.mem_cons_of_mem _ h1, h2⟩
      · exact Or.inl h0
    · rw [if_neg hw] at h
      rcases List.mem_cons.mp h with h0 | h0
      · subst h0
        exact Or.inr ⟨List.mem_cons_self _ _, by simpa using hw⟩
      · rcases ih false h0 with h1 | ⟨h1, h2⟩
        · exact Or.inl h1
        · exact Or.inr ⟨List.mem_cons_of_mem _ h1, h2⟩

/-! ## Claims -/

/-- C1 (counterexample): the claim says a malformed remainder such as
`"free"` makes `parseCurrency` fail with a `FormatError`, but the source's
`currencyToNumber` returns the value `NaN` there — `parseFloat` never
throws — while the spec-modelled `parseCurrencySpec` does return the
claimed `FormatError`. -/
theorem C1_parseCurrency_counterexample :
    currencyToNumber "free" = JsNum.nan ∧
    parseCurrencySpec "free" = Except.error FormatError.formatError :=
  ⟨rfl, rfl⟩

/-- C1 (amended): `currencyToNumber` strips the first `$` and parses the
remainder with `parseFloat` semantics, giving exactly `29.99` on `"$29.99"`
and `0.00` on `"$0.00"`; on every input whose remainder has no parseable
decimal prefix (such as `"free"`) it returns the value `NaN` rather than
raising an error. -/
theorem C1_parseCurrency_amended :
    currencyToNumber "$29.99" = JsNum.num (2999 / 100) ∧
    currencyToNumber "$0.00" = JsNum.num 0 ∧
    ∀ s : String, jsParseFloat (jsReplaceFirst s "$" "") = JsNum.nan →
      currencyToNumber s = JsNum.nan := by
  refine ⟨?_, ?_, ?_⟩
  · rw [show currencyToNumber "$29.99" = JsNum.num (ratOfParts 1 29 99 2 0) from rfl]
    norm_num [ratOfParts, pow10]
  · rw [show currencyToNumber "$0.00" = JsNum.num (ratOfParts 1 0 0 2 0) from rfl]
    norm_num [ratOfParts, pow10]
  · intro s h
    exact h

/-- C1 (witness): the amended theorem applied to the concrete input
`"free"`. -/
theorem C1_parseCurrency_witness : currencyToNumber "free" = JsNum.nan :=
  C1_parseCurrency_amended.2.2 "free" rfl

/-- C2: `productNameToDataTest` maps the two spec examples as claimed, and
for every input its output contains no whitespace (runs were collapsed to
hyphens), no parentheses, no periods, and no ASCII uppercase letter (the
input was lower-cased first); it is a pure function of its argument. -/
theorem C2_normalizeProductKey :
    productNameToDataTest "Sauce Labs Bike Light" = "sauce-labs-bike-light" ∧
    productNameToDataTest "Test.allTheThings() T-Shirt (Red)" =
      "testallthethings-t-shirt-red" ∧
    ∀ (s : String) (c : Char), c ∈ (productNameToDataTest s).data →
      isJsWhitespace c = false ∧ c ≠ '(' ∧ c ≠ ')' ∧ c ≠ '.' ∧
        ¬('A' ≤ c ∧ c ≤ 'Z') := by
  refine ⟨by decide, by decide, ?_⟩
  intro s c hc
  have hc' : c ∈ List.filter (fun c => !(c = '.' : Bool))
      (List.filter (fun c => !((c = '(' : Bool) || (c = ')' : Bool)))
        (collapseWsToHyphen (s.data.map Char.toLower))) := hc
  simp only [List.mem_filter, Bool.not_eq_eq_eq_not, Bool.not_true, decide_eq_false_iff_not,
    Bool.or_eq_false_iff] at hc'
  obtain ⟨⟨hmem, hpar⟩, hdot⟩ := hc'
  rcases mem_collapseWsAux c _ false hmem with hhy | ⟨hmap, hws⟩
  · subst hhy
    refine ⟨by decide, by decide, by decide, by decide, by decide⟩
  · obtain ⟨a, _, ha⟩ := List.mem_map.mp hmap
    refine ⟨hws, by simpa using hpar.1, by simpa using hpar.2, by simpa using hdot, ?_⟩
    rw [← ha]
    exact toLower_not_upper a

/-- C2 (witness): the membership part of the theorem applied at the
concrete input string and output character. -/
theorem C2_normalizeProductKey_witness :
    isJsWhitespace 's' = false ∧ 's' ≠ '(' ∧ 's' ≠ ')' ∧ 's' ≠ '.' ∧
      ¬('A' ≤ 's' ∧ 's' ≤ 'Z') :=
  C2_normalizeProductKey.2.2 "Sauce Labs Bike Light" 's' (by decide)

/-- C3: for every product collection (with pairwise-distinct members, as
the fixture's unique-name invariant guarantees) and every count,
`getRandomProducts` returns exactly `min count |products|` pairwise-distinct
products drawn from the collection, and when `count` exceeds the collection
size it returns the full collection up to order, not an error.  `shuffled`
is the permutation the random comparator sort produced on this call. -/
theorem C3_sampleProducts {α : Type} (products shuffled : List α) (count : ℕ)
    (hperm : shuffled.Perm products) (hnd : products.Nodup) :
    (getRandomProducts products shuffled count).length = min count products.length ∧
    (getRandomProducts products shuffled count).Nodup ∧
    (∀ x ∈ getRandomProducts products shuffled count, x ∈ products) ∧
    (products.length ≤ count →
      (getRandomProducts products shuffled count).Perm products) := by
  have hlen : shuffled.length = products.length := hperm.length_eq
  refine ⟨?_, ?_, ?_, ?_⟩
  · rw [getRandomProducts, List.length_take, hlen]
    omega
  · exact List.Nodup.sublist (List.take_sublist _ _) (hperm.nodup_iff.mpr hnd)
  · intro x hx
    exact hperm.subset (List.take_subset _ _ hx)
  · intro hcount
    rw [getRandomProducts, min_eq_right hcount, ← hlen, List.take_length]
    exact hperm

/-- C3 (witness): the theorem at the concrete collection `[1, 2, 3]`, the
shuffle outcome `[3, 1, 2]`, and count `5`. -/
theorem C3_sampleProducts_witness :
    (getRandomProducts [1, 2, 3] [3, 1, 2] 5).length = min 5 ([1, 2, 3] : List ℕ).length ∧
    (getRandomProducts [1, 2, 3] [3, 1, 2] 5).Nodup ∧
    (∀ x ∈ getRandomProducts [1, 2, 3] [3, 1, 2] 5, x ∈ ([1, 2, 3] : List ℕ)) ∧
    (([1, 2, 3] : List ℕ).length ≤ 5 →
      (getRandomProducts [1, 2, 3] [3, 1, 2] 5).Perm [1, 2, 3]) :=
  C3_sampleProducts [1, 2, 3] [3, 1, 2] 5 (by decide) (by decide)

/-- C8: `getRandomProducts` never mutates the caller's product array: in the
explicit-store embedding, the array the caller's reference points to is
identical (same elements, same order) before and after the call, because
the random-comparator sort runs on the freshly allocated spread copy. -/
theorem C8_sampleProducts_no_mutation {α : Type} (st : ArrayStore α)
    (productsRef : ℕ) (sortOutcome : List α → List α) (count : ℕ)
    (href : productsRef < st.arrays.length) :
    ((getRandomProductsStore st productsRef sortOutcome count).1).read productsRef =
      st.read productsRef := by
  rw [getRandomProductsStore]
  simp only [ArrayStore.read, ArrayStore.alloc, ArrayStore.write]
  rw [List.getD_eq_getElem?_getD, List.getD_eq_getElem?_getD]
  rw [List.getElem?_set_ne (by omega)]
  rw [List.getElem?_append_left href]

/-- C8 (witness): the theorem at a concrete one-array store with a reversing
sort outcome. -/
theorem C8_sampleProducts_no_mutation_witness :
    ((getRandomProductsStore (⟨[[1, 2, 3]]⟩ : ArrayStore ℕ) 0 List.reverse 2).1).read 0 =
      (⟨[[1, 2, 3]]⟩ : ArrayStore ℕ).read 0 :=
  C8_sampleProducts_no_mutation ⟨[[1, 2, 3]]⟩ 0 List.reverse 2 (by decide)

/-- C4: `clearCart` re-reads the live item count each iteration and removes
the first available item; provided a nonempty cart always shows its first
remove button and each removal decreases the live count by exactly one, the
loop terminates within `initial count + 1` iterations and the final count is
zero. -/
theorem C4_clearCart_terminates {S : Type} (env : LiveCart S) (s0 : S)
    (hvis : ∀ s, 0 < env.itemCount s → env.removeVisible s = true)
    (hdec : ∀ s, 0 < env.itemCount s →
      env.itemCount (env.clickRemove s) = env.itemCount s - 1) :
    ∃ s1, clearCartLoop env (env.itemCount s0 + 1) s0 = some s1 ∧
      env.itemCount s1 = 0 := by
  suffices h : ∀ (n : ℕ) (s : S), env.itemCount s = n →
      ∃ s1, clearCartLoop env (n + 1) s = some s1 ∧ env.itemCount s1 = 0 by
    exact h _ s0 rfl
  intro n
  induction n with
  | zero =>
    intro s hs
    refine ⟨s, ?_, hs⟩
    simp only [clearCartLoop]
    rw [if_neg (by omega)]
  | succ n ih =>
    intro s hs
    have hpos : 0 < env.itemCount s := by omega
    have h2 := hdec s hpos
    obtain ⟨s1, hrun, hz⟩ := ih (env.clickRemove s) (by omega)
    refine ⟨s1, ?_, hz⟩
    simp only [clearCartLoop]
    rw [if_pos hpos, if_pos (hvis s hpos)]
    exact hrun

/-- C4 (witness): the theorem for the cart whose state is its item count,
whose remove button is always visible, and whose removal decrements the
count, starting from three items. -/
theorem C4_clearCart_witness :
    ∃ s1, clearCartLoop (⟨id, fun _ => true, Nat.pred⟩ : LiveCart ℕ)
        ((⟨id, fun _ => true, Nat.pred⟩ : LiveCart ℕ).itemCount 3 + 1) 3 = some s1 ∧
      (⟨id, fun _ => true, Nat.pred⟩ : LiveCart ℕ).itemCount s1 = 0 :=
  C4_clearCart_terminates (⟨id, fun _ => true, Nat.pred⟩ : LiveCart ℕ) 3
    (fun _ _ => rfl) (fun _ _ => rfl)

/-- C5: `loadFixture` fails (with the single wrapped fixture-load error) if
and only if the fixture file is unreadable or its content fails JSON
parsing; otherwise it returns exactly the parsed data, so no partial result
ever escapes. -/
theorem C5_loadFixture_errors {α : Type} (readFile : String → Except String String)
    (jsonParse : String → Except String α) (dirname filename : String) :
    ((∃ e, loadFixture readFile jsonParse dirname filename = Except.error e) ↔
      (∃ m, readFile (fixturePath dirname filename) = Except.error m) ∨
      (∃ d m, readFile (fixturePath dirname filename) = Except.ok d ∧
        jsonParse d = Except.error m)) ∧
    ∀ a : α, loadFixture readFile jsonParse dirname filename = Except.ok a ↔
      ∃ d, readFile (fixturePath dirname filename) = Except.ok d ∧
        jsonParse d = Except.ok a := by
  constructor
  · cases hr : readFile (fixturePath dirname filename) with
    | error m =>
      simp [loadFixture, hr]
    | ok d =>
      cases hp : jsonParse d with
      | error m => simp [loadFixture, hr, hp]
      | ok a => simp [loadFixture, hr, hp]
  · intro a
    cases hr : readFile (fixturePath dirname filename) with
    | error m => simp [loadFixture, hr]
    | ok d =>
      cases hp : jsonParse d with
      | error m => simp [loadFixture, hr, hp]
      | ok b => simp [loadFixture, hr, hp, eq_comm]

/-- C5 (witness): with a filesystem where the fixture file is missing,
`loadFixture` fails. -/
theorem C5_loadFixture_witness :
    ∃ e, loadFixture (fun _ => Except.error "ENOENT")
      (fun _ => (Except.error "unexpected" : Except String ℕ)) "utils" "users" =
        Except.error e :=
  (C5_loadFixture_errors (fun _ => Except.error "ENOENT")
    (fun _ => (Except.error "unexpected" : Except String ℕ)) "utils" "users").1.mpr
    (Or.inl ⟨"ENOENT", rfl⟩)

/-- C6: `isElementVisible` is total — for every selector and every outcome
of the bounded 5-second wait it returns a Boolean: `true` when the wait
resolves, and `false` (never an exception) for every rejection the bare
catch traps, including the timeout. -/
theorem C6_isElementVisible_total
    (waitForSelector : String → ℕ → Except JsError Unit) (selector : String) :
    (isElementVisible waitForSelector selector = true ∨
      isElementVisible waitForSelector selector = false) ∧
    (∀ e, waitForSelector selector isElementVisibleTimeoutMs = Except.error e →
      isElementVisible waitForSelector selector = false) ∧
    (waitForSelector selector isElementVisibleTimeoutMs = Except.ok () →
      isElementVisible waitForSelector selector = true) := by
  refine ⟨?_, ?_, ?_⟩
  · cases h : waitForSelector selector isElementVisibleTimeoutMs with
    | ok u => exact Or.inl (by simp [isElementVisible, h])
    | error e => exact Or.inr (by simp [isElementVisible, h])
  · intro e he
    simp [isElementVisible, he]
  · intro hok
    simp [isElementVisible, hok]

/-- C6 (witness): the theorem applied to a wait that times out on the cart
badge selector. -/
theorem C6_isElementVisible_witness :
    isElementVisible (fun _ _ => Except.error JsError.timeout) shoppingCartBadge = false :=
  (C6_isElementVisible_total (fun _ _ => Except.error JsError.timeout)
    shoppingCartBadge).2.1 JsError.timeout rfl

/-- C7: for every username/password pair, `login` performs exactly the
fill-username, fill-password, submit-click interaction in that order (its
user-input actions are exactly those three), followed by the bounded
1000 ms settling wait as its final action; its value is the action trace
alone — no success/failure verdict. -/
theorem C7_login_trace (username password : String) :
    login username password =
      fillInput usernameInput username ++ fillInput passwordInput password ++
        clickElement loginButton ++ [PageAction.waitForTimeout 1000] ∧
    (login username password).filter isInputAction =
      [PageAction.fill usernameInput username,
       PageAction.fill passwordInput password,
       PageAction.click loginButton] ∧
    (login username password).getLast? = some (PageAction.waitForTimeout 1000) := by
  refine ⟨rfl, ?_, ?_⟩ <;>
    simp [login, enterUsername, enterPassword, clickLogin, fillInput, clickElement,
      isInputAction]

/-- C9: `ProductsPage.getCartItemCount` is total over all badge states: it
returns `0` when the badge is not visible, `0` when the badge is visible
but its text has no parseable integer (`parseInt` gives `NaN`), and the
parsed integer value otherwise. -/
theorem C9_getCartItemCount_total (badgeVisible : Bool) (badgeText : String) :
    (badgeVisible = false → getCartItemCount badgeVisible badgeText = 0) ∧
    (badgeVisible = true → jsParseInt badgeText = none →
      getCartItemCount badgeVisible badgeText = 0) ∧
    (∀ n : ℤ, badgeVisible = true → jsParseInt badgeText = some n →
      getCartItemCount badgeVisible badgeText = n) := by
  refine ⟨?_, ?_, ?_⟩
  · intro h
    simp [getCartItemCount, h]
  · intro h hp
    simp [getCartItemCount, h, hp]
  · intro n h hp
    simp only [getCartItemCount, h, if_true, hp]
    by_cases hn : n = 0
    · simp [hn]
    · simp [hn]

/-- C9 (witness): the theorem applied to an invisible badge, a visible badge
with unparseable text, and a visible badge reading `3`. -/
theorem C9_getCartItemCount_witness :
    getCartItemCount false "7" = 0 ∧ getCartItemCount true "items" = 0 ∧
    getCartItemCount true "3" = 3 :=
  ⟨(C9_getCartItemCount_total false "7").1 rfl,
   (C9_getCartItemCount_total true "items").2.1 rfl (by decide),
   (C9_getCartItemCount_total true "3").2.2 3 rfl (by decide)⟩

/-- For a `Math.random()` outcome `0 ≤ r < 1`, the drawn index is in
range. -/
theorem randomIndex_lt (r : ℚ) (h0 : 0 ≤ r) (h1 : r < 1) (len : ℕ)
    (hlen : 0 < len) : randomIndex r len < len := by
  rw [randomIndex]
  have hmul : r * (len : ℚ) < (len : ℚ) := by
    calc r * (len : ℚ) < 1 * (len : ℚ) :=
          mul_lt_mul_of_pos_right h1 (by exact_mod_cast hlen)
      _ = (len : ℚ) := one_mul _
  have hfl : ⌊r * (len : ℚ)⌋ < (len : ℤ) := Int.floor_lt.mpr (by exact_mod_cast hmul)
  have hnn : 0 ≤ ⌊r * (len : ℚ)⌋ :=
    Int.floor_nonneg.mpr (mul_nonneg h0 (by positivity))
  omega

/-- `charAt` inside the string yields exactly one character of the
string. -/
theorem charAt_mem (s : String) (k : ℕ) (hk : k < s.data.length) :
    ∃ c, charAt s k = [c] ∧ c ∈ s.data := by
  rw [charAt]
  rw [List.getElem?_eq_getElem hk]
  exact ⟨_, rfl, List.getElem_mem hk⟩

/-- The loop of `generateRandomString` emits one alphabet character per
iteration whenever every random draw lies in `[0, 1)`. -/
theorem generateRandomStringAux_spec (random : ℕ → ℚ)
    (h : ∀ i, 0 ≤ random i ∧ random i < 1) :
    ∀ n i : ℕ, (generateRandomStringAux random i n).length = n ∧
      ∀ c ∈ generateRandomStringAux random i n, c ∈ characters.data := by
  intro n
  induction n with
  | zero =>
    intro i
    exact ⟨rfl, by simp [generateRandomStringAux]⟩
  | succ n ih =>
    intro i
    have hlt : randomIndex (random i) characters.length < characters.data.length := by
      have hi := h i
      exact randomIndex_lt _ hi.1 hi.2 _ (by decide)
    obtain ⟨c, hca, hcm⟩ := charAt_mem characters _ hlt
    constructor
    · simp [generateRandomStringAux, hca, (ih (i + 1)).1]
    · intro c' hc'
      simp only [generateRandomStringAux, hca, List.cons_append, List.nil_append,
        List.mem_cons] at hc'
      rcases hc' with hc' | hc'
      · exact hc' ▸ hcm
      · exact (ih (i + 1)).2 c' hc'

/-- C10: for every stream of `Math.random()` outcomes in `[0, 1)` and every
length, `generateRandomString` returns a string of exactly that many
characters, each drawn from the 62-character alphanumeric alphabet. -/
theorem C10_generateRandomString (random : ℕ → ℚ) (length : ℕ)
    (h : ∀ i, 0 ≤ random i ∧ random i < 1) :
    (generateRandomString random length).length = length ∧
    (∀ c ∈ (generateRandomString random length).data, c ∈ characters.data) ∧
    characters.data.length = 62 := by
  have := generateRandomStringAux_spec random h length 0
  exact ⟨this.1, this.2, rfl⟩

/-- C10 (witness): the theorem for the constant stream `1/2` and length
five. -/
theorem C10_generateRandomString_witness :
    (generateRandomString (fun _ => 1 / 2) 5).length = 5 ∧
    (∀ c ∈ (generateRandomString (fun _ => 1 / 2) 5).data, c ∈ characters.data) ∧
    characters.data.length = 62 :=
  C10_generateRandomString (fun _ => 1 / 2) 5 (fun _ => ⟨by norm_num, by norm_num⟩)

end SauceDemo
